import Mathlib

/-!
Verification of the folder handle from
`src/google/cloud/resource_manager/folder.py`.

A Python dict decoded from JSON is modelled as an association list from
string keys to optional string values (a `none` value models JSON null).
The HTTP collaborator (`client._connection_v2.api_request`) is modelled as
a function from requests to either an error or a response dict; each
client carries a numeric identifier so that theorems can speak about which
client a request was issued on.  Methods return an `Outcome`: the list of
requests issued (paired with the id of the client that issued each), the
result (an exception propagating is `Except.error`), and the folder state
after the call.
-/

/-- A JSON object / Python dict: keys to optional string values. -/
abbrev Dict := List (String × Option String)

namespace Dict

/-- Python `key in resource`. -/
def hasKey (r : Dict) (k : String) : Bool :=
  r.any (fun p => p.1 == k)

/-- Python `resource.get(key)`: the stored value when the key is present
(`none` if that value is JSON null), `none` when the key is absent. -/
def pyGet (r : Dict) (k : String) : Option String :=
  match r.find? (fun p => p.1 == k) with
  | some p => p.2
  | none => none

end Dict

/-- Error raised by the HTTP collaborator: `NotFound` is distinguished
(caught by `exists`); every other failure is a generic request error. -/
inductive Err where
  | notFound : Err
  | other : Nat → Err
deriving DecidableEq, Repr

/-- One HTTP request as passed to `api_request`: method, path, optional
JSON body and optional query parameters. -/
structure Request where
  method : String
  path : String
  data : Option Dict := none
  query_params : Option Dict := none
deriving DecidableEq, Repr

/-- The HTTP collaborator together with the client that owns it.  `id`
identifies the client object; `backend` is `_connection_v2.api_request`. -/
structure Client where
  id : Nat
  backend : Request → Except Err Dict

/-- The mutable local fields of a `Folder` (from `Folder.__init__`):
`name` is the globally unique id, `status` mirrors `lifecycleState`. -/
structure Folder where
  name : Option String
  display_name : Option String
  status : Option String
  parent : Option String
deriving DecidableEq, Repr

/-- Result of running one method: the requests issued (with the id of the
client each was issued on, in order), the returned value or propagated
exception, and the folder's fields after the call. -/
structure Outcome (α : Type) where
  trace : List (Nat × Request)
  result : Except Err α
  state : Folder

namespace Folder

/-- `Folder.set_properties_from_api_repr`: `self.name = resource.get("name")`
unconditionally; `parent` and `status` are assigned only when the
corresponding key is present in the resource dict. -/
def set_properties_from_api_repr (f : Folder) (resource : Dict) : Folder :=
  let f1 := { f with name := resource.pyGet "name" }
  let f2 := if resource.hasKey "parent" then
      { f1 with parent := resource.pyGet "parent" } else f1
  if resource.hasKey "lifecycleState" then
    { f2 with status := resource.pyGet "lifecycleState" } else f2

/-- `Folder.from_api_repr`: `resource["name"]` raises `KeyError` when the
key is absent (modelled as `none`); otherwise builds
`Folder(name=resource["name"], client=client)` and merges the resource. -/
def from_api_repr (resource : Dict) : Option Folder :=
  match resource.find? (fun p => p.1 == "name") with
  | none => none
  | some p =>
    let folder : Folder :=
      { name := p.2, display_name := none, status := none, parent := none }
    some (folder.set_properties_from_api_repr resource)

/-- `Folder.path`: `"/%s" % (self.name)`; Python renders `None` as the
string `"None"`. -/
def path (f : Folder) : String :=
  match f.name with
  | some s => "/" ++ s
  | none => "/None"

/-- `Folder._require_client`: the override client when passed, otherwise
the client bound to the folder. -/
def require_client (bound : Client) (client : Option Client) : Client :=
  match client with
  | none => bound
  | some c => c

/-- `Folder.create`: one POST to `/folders` with body
`{"name": self.name, "displayName": self.display_name}` and query
`{"parent": self.parent}`; on success the response is merged and returned. -/
def create (f : Folder) (bound : Client) (client : Option Client) :
    Outcome Dict :=
  let c := require_client bound client
  let data : Dict := [("name", f.name), ("displayName", f.display_name)]
  let qp : Dict := [("parent", f.parent)]
  let req : Request :=
    { method := "POST", path := "/folders",
      data := some data, query_params := some qp }
  match c.backend req with
  | Except.error e => ⟨[(c.id, req)], Except.error e, f⟩
  | Except.ok resp =>
    ⟨[(c.id, req)], Except.ok resp, f.set_properties_from_api_repr resp⟩

/-- `Folder.reload`: one GET to `self.path`; on success the response is
merged into the local fields. -/
def reload (f : Folder) (bound : Client) (client : Option Client) :
    Outcome Unit :=
  let c := require_client bound client
  let req : Request := { method := "GET", path := f.path }
  match c.backend req with
  | Except.error e => ⟨[(c.id, req)], Except.error e, f⟩
  | Except.ok resp =>
    ⟨[(c.id, req)], Except.ok (), f.set_properties_from_api_repr resp⟩

/-- `Folder.exists`: one GET to `self.path`; `NotFound` is caught and
yields `false`, success yields `true`, any other error propagates. -/
def «exists» (f : Folder) (bound : Client) (client : Option Client) :
    Outcome Bool :=
  let c := require_client bound client
  let req : Request := { method := "GET", path := f.path }
  match c.backend req with
  | Except.error Err.notFound => ⟨[(c.id, req)], Except.ok false, f⟩
  | Except.error e => ⟨[(c.id, req)], Except.error e, f⟩
  | Except.ok _ => ⟨[(c.id, req)], Except.ok true, f⟩

/-- `Folder.update`: one PUT to `self.path` with body
`{"display_name": self.display_name, "parent": self.parent}` (note the
snake_case key in the source); on success the response is merged. -/
def update (f : Folder) (bound : Client) (client : Option Client) :
    Outcome Unit :=
  let c := require_client bound client
  let data : Dict := [("display_name", f.display_name), ("parent", f.parent)]
  let req : Request := { method := "PUT", path := f.path, data := some data }
  match c.backend req with
  | Except.error e => ⟨[(c.id, req)], Except.error e, f⟩
  | Except.ok resp =>
    ⟨[(c.id, req)], Except.ok (), f.set_properties_from_api_repr resp⟩

/-- `Folder.delete`: one DELETE to `self.path`; when `reload_data` is set
and the DELETE succeeded, `self.reload()` follows — with no client
argument, so the reload uses the folder's bound client. -/
def delete (f : Folder) (bound : Client) (client : Option Client)
    (reload_data : Bool) : Outcome Unit :=
  let c := require_client bound client
  let req : Request := { method := "DELETE", path := f.path }
  match c.backend req with
  | Except.error e => ⟨[(c.id, req)], Except.error e, f⟩
  | Except.ok _ =>
    if reload_data then
      let o := f.reload bound none
      ⟨(c.id, req) :: o.trace, o.result, o.state⟩
    else ⟨[(c.id, req)], Except.ok (), f⟩

/-- `Folder.undelete`: one POST to `self.path + ":undelete"`; when
`reload_data` is set and the POST succeeded, `self.reload()` follows on
the folder's bound client. -/
def undelete (f : Folder) (bound : Client) (client : Option Client)
    (reload_data : Bool) : Outcome Unit :=
  let c := require_client bound client
  let req : Request := { method := "POST", path := f.path ++ ":undelete" }
  match c.backend req with
  | Except.error e => ⟨[(c.id, req)], Except.error e, f⟩
  | Except.ok _ =>
    if reload_data then
      let o := f.reload bound none
      ⟨(c.id, req) :: o.trace, o.result, o.state⟩
    else ⟨[(c.id, req)], Except.ok (), f⟩

end Folder

/-- Concrete folder used to instantiate theorems: id set, local edits to
the display name, an active status and a parent. -/
def f0 : Folder :=
  { name := some "folders/42", display_name := some "old",
    status := some "ACTIVE", parent := some "org/7" }

/-- A full server representation of a folder, as `reload` expects. -/
def fullResp : Dict :=
  [("name", some "folders/1"), ("displayName", some "new"),
   ("parent", some "org/2"), ("lifecycleState", some "DELETE_REQUESTED")]

/-- Client whose backend answers every request with `fullResp`. -/
def okClient : Client := ⟨1, fun _ => Except.ok fullResp⟩

/-- Client whose backend fails every request with a generic error. -/
def errClient : Client := ⟨2, fun _ => Except.error (Err.other 500)⟩

/-- Client whose backend fails every request with `NotFound`. -/
def nfClient : Client := ⟨3, fun _ => Except.error Err.notFound⟩

/-- The merge routine always overwrites `name` with `resource.get("name")`,
even when the key is absent (in which case `name` becomes `none`). -/
theorem Folder.merge_name (f : Folder) (r : Dict) :
    (f.set_properties_from_api_repr r).name = r.pyGet "name" := by
  unfold Folder.set_properties_from_api_repr
  cases hp : r.hasKey "parent" <;> cases hl : r.hasKey "lifecycleState" <;>
    simp [hp, hl]

/-- The merge routine updates `parent` only when the key is present. -/
theorem Folder.merge_parent (f : Folder) (r : Dict) :
    (f.set_properties_from_api_repr r).parent =
      (if r.hasKey "parent" then r.pyGet "parent" else f.parent) := by
  unfold Folder.set_properties_from_api_repr
  cases hp : r.hasKey "parent" <;> cases hl : r.hasKey "lifecycleState" <;>
    simp [hp, hl]

/-- The merge routine updates `status` only when `lifecycleState` is
present. -/
theorem Folder.merge_status (f : Folder) (r : Dict) :
    (f.set_properties_from_api_repr r).status =
      (if r.hasKey "lifecycleState" then r.pyGet "lifecycleState"
       else f.status) := by
  unfold Folder.set_properties_from_api_repr
  cases hp : r.hasKey "parent" <;> cases hl : r.hasKey "lifecycleState" <;>
    simp [hp, hl]

/-- The merge routine never touches `display_name`. -/
theorem Folder.merge_display_name (f : Folder) (r : Dict) :
    (f.set_properties_from_api_repr r).display_name = f.display_name := by
  unfold Folder.set_properties_from_api_repr
  cases hp : r.hasKey "parent" <;> cases hl : r.hasKey "lifecycleState" <;>
    simp [hp, hl]

/-- C1, counterexample: the claim says a response dict lacking the `name`
key leaves the previously set local id unchanged; on the folder whose id
is `folders/old`, merging the response `{"parent": "org/9"}` (no `name`
key) in fact clears the id to `None`. -/
theorem C1_counterexample :
    ¬ (((⟨some "folders/old", some "d", some "ACTIVE", some "org/7"⟩ :
          Folder).set_properties_from_api_repr
            [("parent", some "org/9")]).name = some "folders/old") := by
  decide

/-- C1, amended: in `set_properties_from_api_repr`, `parent` and
`lifecycleState` are copied only when the key is present, absent keys
leaving them unchanged, and `display_name` is never touched; `name`,
however, is unconditionally overwritten with `resource.get("name")`,
which is `None` when the key is absent.  Merging the partial response
`{"name": "folders/1"}` updates only the id, leaving previously set
parent and lifecycleState values untouched. -/
theorem C1_merge_partial (f : Folder) (r : Dict) :
    (f.set_properties_from_api_repr r).name = r.pyGet "name" ∧
    (f.set_properties_from_api_repr r).parent =
      (if r.hasKey "parent" then r.pyGet "parent" else f.parent) ∧
    (f.set_properties_from_api_repr r).status =
      (if r.hasKey "lifecycleState" then r.pyGet "lifecycleState"
       else f.status) ∧
    (f.set_properties_from_api_repr r).display_name = f.display_name ∧
    ((⟨some "folders/old", some "d", some "ACTIVE", some "org/7"⟩ :
        Folder).set_properties_from_api_repr [("name", some "folders/1")] =
      ⟨some "folders/1", some "d", some "ACTIVE", some "org/7"⟩) :=
  ⟨Folder.merge_name f r, Folder.merge_parent f r, Folder.merge_status f r,
   Folder.merge_display_name f r, by decide⟩

/-- C2, counterexample: the claim says `reload()` overwrites all local
fields, `displayName` included, with the server's values; yet on the
folder whose local display name is `old`, reloading against a server
whose full representation carries the display name `new` leaves the
local display name at `old`. -/
theorem C2_counterexample :
    (f0.reload okClient none).state.display_name = some "old" ∧
    Dict.pyGet fullResp "displayName" = some "new" := by
  decide

/-- C2, amended: `reload()` issues one GET request to the handle's path
and merges the response through the partial-merge routine: the id is
overwritten unconditionally and `parent`/`lifecycleState` are overwritten
whenever the response carries those keys (always, for a full server
representation), discarding unsaved local edits to them; `displayName`
is never modified by the merge. -/
theorem C2_reload (f : Folder) (c : Client) (resp : Dict)
    (h : c.backend { method := "GET", path := f.path } = Except.ok resp) :
    (f.reload c none).trace = [(c.id, { method := "GET", path := f.path })] ∧
    (f.reload c none).state = f.set_properties_from_api_repr resp ∧
    (f.reload c none).state.name = resp.pyGet "name" ∧
    (f.reload c none).state.parent =
      (if resp.hasKey "parent" then resp.pyGet "parent" else f.parent) ∧
    (f.reload c none).state.status =
      (if resp.hasKey "lifecycleState" then resp.pyGet "lifecycleState"
       else f.status) ∧
    (f.reload c none).state.display_name = f.display_name := by
  unfold Folder.reload Folder.require_client
  simp only [h]
  exact ⟨trivial, trivial, Folder.merge_name f resp, Folder.merge_parent f resp,
    Folder.merge_status f resp, Folder.merge_display_name f resp⟩

/-- C2, witness: the amended reload theorem instantiated on the concrete
folder `f0` and a backend returning the full representation `fullResp`. -/
theorem C2_reload_witness :
    (f0.reload okClient none).trace =
      [(okClient.id, { method := "GET", path := f0.path })] ∧
    (f0.reload okClient none).state =
      f0.set_properties_from_api_repr fullResp ∧
    (f0.reload okClient none).state.name = Dict.pyGet fullResp "name" ∧
    (f0.reload okClient none).state.parent =
      (if Dict.hasKey fullResp "parent" then Dict.pyGet fullResp "parent"
       else f0.parent) ∧
    (f0.reload okClient none).state.status =
      (if Dict.hasKey fullResp "lifecycleState"
       then Dict.pyGet fullResp "lifecycleState" else f0.status) ∧
    (f0.reload okClient none).state.display_name = f0.display_name :=
  C2_reload f0 okClient fullResp rfl

/-- C3: evaluation of the code at the failing input.  `update()` on the
folder `f0` issues exactly one PUT to the handle's path and merges the
response, but its JSON body carries the snake_case key `display_name` and
no `displayName` key — contradicting the claim, the spec's own wire
format, and the camelCase key `create()` uses for the same field. -/
theorem C3_update_body :
    (f0.update okClient none).trace =
      [(okClient.id,
        { method := "PUT", path := "/folders/42",
          data := some [("display_name", some "old"),
                        ("parent", some "org/7")] })] ∧
    Dict.hasKey [("display_name", (some "old" : Option String)),
                 ("parent", some "org/7")] "displayName" = false ∧
    (f0.update okClient none).state =
      f0.set_properties_from_api_repr fullResp := by
  decide

/-- C4: `exists()` issues one GET to the handle's path, leaves the local
fields untouched, returns `false` exactly when the backend answers
`NotFound`, returns `true` exactly when the GET succeeds, and propagates
any other error unchanged. -/
theorem C4_exists (f : Folder) (c : Client) :
    ((f.«exists» c none).result = Except.ok false ↔
      c.backend { method := "GET", path := f.path } =
        Except.error Err.notFound) ∧
    ((f.«exists» c none).result = Except.ok true ↔
      ∃ resp, c.backend { method := "GET", path := f.path } =
        Except.ok resp) ∧
    (∀ e : Err, (f.«exists» c none).result = Except.error e ↔
      (c.backend { method := "GET", path := f.path } = Except.error e ∧
        e ≠ Err.notFound)) ∧
    (f.«exists» c none).state = f ∧
    (f.«exists» c none).trace =
      [(c.id, { method := "GET", path := f.path })] := by
  unfold Folder.«exists» Folder.require_client
  cases hb : c.backend { method := "GET", path := f.path } with
  | error e =>
    cases e with
    | notFound => simp [hb]
    | other n =>
      simp only [hb]
      refine ⟨by simp, by simp, ?_, by trivial, by trivial⟩
      intro e
      constructor
      · intro he
        rw [Except.error.injEq] at he
        exact ⟨by rw [he], by rw [← he]; intro hc; cases hc⟩
      · intro ⟨he, _⟩
        rw [Except.error.injEq] at he
        rw [he]
  | ok resp => simp [hb]

/-- C4, witness: the `exists` characterisation applied to the folder `f0`
with a NotFound backend, a succeeding backend and a generically failing
backend. -/
theorem C4_exists_witness :
    (f0.«exists» nfClient none).result = Except.ok false ∧
    (f0.«exists» okClient none).result = Except.ok true ∧
    (f0.«exists» errClient none).result = Except.error (Err.other 500) :=
  ⟨(C4_exists f0 nfClient).1.mpr rfl,
   (C4_exists f0 okClient).2.1.mpr ⟨fullResp, rfl⟩,
   ((C4_exists f0 errClient).2.2.1 (Err.other 500)).mpr
     ⟨rfl, by intro hc; cases hc⟩⟩

/-- C5: a handle whose id is `folders/42` has resource path `/folders/42`;
`reload`, `update` and `delete` send their single request to that path,
`undelete` appends `:undelete`; in general a handle with a set id has
resource path `/` concatenated with the id. -/
theorem C5_paths (f : Folder) (c : Client) (h : f.name = some "folders/42") :
    f.path = "/folders/42" ∧
    (f.reload c none).trace.map (fun p => p.2.path) = ["/folders/42"] ∧
    (f.update c none).trace.map (fun p => p.2.path) = ["/folders/42"] ∧
    (f.delete c none false).trace.map (fun p => p.2.path) =
      ["/folders/42"] ∧
    (f.undelete c none false).trace.map (fun p => p.2.path) =
      ["/folders/42:undelete"] ∧
    (∀ g : Folder, ∀ s : String, g.name = some s → g.path = "/" ++ s) := by
  have hp : f.path = "/folders/42" := by simp [Folder.path, h]
  refine ⟨hp, ?_, ?_, ?_, ?_, ?_⟩
  · simp only [Folder.reload, Folder.require_client]
    split <;> simp [hp]
  · simp only [Folder.update, Folder.require_client]
    split <;> simp [hp]
  · simp only [Folder.delete, Folder.require_client]
    split <;> simp [hp]
  · simp only [Folder.undelete, Folder.require_client]
    split <;> simp [hp]
  · intro g s hg
    simp [Folder.path, hg]

/-- C5, witness: the path theorem applied to the concrete folder `f0`,
whose id is `folders/42`, with a succeeding backend. -/
theorem C5_paths_witness :
    f0.path = "/folders/42" ∧
    (f0.reload okClient none).trace.map (fun p => p.2.path) =
      ["/folders/42"] ∧
    (f0.update okClient none).trace.map (fun p => p.2.path) =
      ["/folders/42"] ∧
    (f0.delete okClient none false).trace.map (fun p => p.2.path) =
      ["/folders/42"] ∧
    (f0.undelete okClient none false).trace.map (fun p => p.2.path) =
      ["/folders/42:undelete"] ∧
    (∀ g : Folder, ∀ s : String, g.name = some s → g.path = "/" ++ s) :=
  C5_paths f0 okClient rfl

/-- C6: when the DELETE succeeds, `delete(reload_data=false)` issues the
DELETE request and no GET, and `delete(reload_data=true)` issues the
DELETE followed by exactly one GET, in that order. -/
theorem C6_delete_requests (f : Folder) (c : Client) (resp : Dict)
    (h : c.backend { method := "DELETE", path := f.path } =
      Except.ok resp) :
    (f.delete c none false).trace.map (fun p => p.2.method) =
      ["DELETE"] ∧
    (f.delete c none true).trace.map (fun p => p.2.method) =
      ["DELETE", "GET"] := by
  unfold Folder.delete Folder.reload Folder.require_client
  simp only [h]
  cases hg : c.backend { method := "GET", path := f.path } <;> simp [hg]

/-- C6, witness: the delete request-sequence theorem on the concrete
folder `f0` and the always-succeeding backend. -/
theorem C6_delete_requests_witness :
    (f0.delete okClient none false).trace.map (fun p => p.2.method) =
      ["DELETE"] ∧
    (f0.delete okClient none true).trace.map (fun p => p.2.method) =
      ["DELETE", "GET"] :=
  C6_delete_requests f0 okClient fullResp rfl

/-- C7: `create()` issues exactly one POST to `/folders` whose body
carries the keys `name` and `displayName` with the handle's current local
values and whose query carries `parent`; on success the response is
merged into the local id, parent and lifecycleState fields (and the local
display name is untouched). -/
theorem C7_create (f : Folder) (c : Client) (resp : Dict)
    (h : c.backend { method := "POST", path := "/folders",
                     data := some [("name", f.name),
                                   ("displayName", f.display_name)],
                     query_params := some [("parent", f.parent)] } =
      Except.ok resp) :
    (f.create c none).trace =
      [(c.id, { method := "POST", path := "/folders",
                data := some [("name", f.name),
                              ("displayName", f.display_name)],
                query_params := some [("parent", f.parent)] })] ∧
    (f.create c none).state = f.set_properties_from_api_repr resp ∧
    (f.create c none).state.name = resp.pyGet "name" ∧
    (f.create c none).state.parent =
      (if resp.hasKey "parent" then resp.pyGet "parent" else f.parent) ∧
    (f.create c none).state.status =
      (if resp.hasKey "lifecycleState" then resp.pyGet "lifecycleState"
       else f.status) ∧
    (f.create c none).state.display_name = f.display_name := by
  unfold Folder.create Folder.require_client
  simp only [h]
  exact ⟨by trivial, by trivial, Folder.merge_name f resp,
    Folder.merge_parent f resp, Folder.merge_status f resp,
    Folder.merge_display_name f resp⟩

/-- C7, witness: the create theorem on the concrete folder `f0` and the
always-succeeding backend. -/
theorem C7_create_witness :
    (f0.create okClient none).trace =
      [(okClient.id, { method := "POST", path := "/folders",
                       data := some [("name", f0.name),
                                     ("displayName", f0.display_name)],
                       query_params := some [("parent", f0.parent)] })] ∧
    (f0.create okClient none).state =
      f0.set_properties_from_api_repr fullResp ∧
    (f0.create okClient none).state.name = Dict.pyGet fullResp "name" ∧
    (f0.create okClient none).state.parent =
      (if Dict.hasKey fullResp "parent" then Dict.pyGet fullResp "parent"
       else f0.parent) ∧
    (f0.create okClient none).state.status =
      (if Dict.hasKey fullResp "lifecycleState"
       then Dict.pyGet fullResp "lifecycleState" else f0.status) ∧
    (f0.create okClient none).state.display_name = f0.display_name :=
  C7_create f0 okClient fullResp rfl

/-- C8: when the backend fails the PUT issued by `update()` or the POST
issued by `undelete()`, the error propagates unchanged to the caller and
the local fields are exactly as before the call — no rollback and no
mutation. -/
theorem C8_failure_no_mutation (f : Folder) (c : Client) (e1 e2 : Err)
    (h1 : c.backend { method := "PUT", path := f.path,
                      data := some [("display_name", f.display_name),
                                    ("parent", f.parent)] } =
      Except.error e1)
    (h2 : c.backend { method := "POST", path := f.path ++ ":undelete" } =
      Except.error e2) :
    (f.update c none).result = Except.error e1 ∧
    (f.update c none).state = f ∧
    (f.undelete c none false).result = Except.error e2 ∧
    (f.undelete c none false).state = f := by
  unfold Folder.update Folder.undelete Folder.require_client
  simp only [h1, h2]
  exact ⟨by trivial, by trivial, by trivial, by trivial⟩

/-- C8, witness: update and undelete on the concrete folder `f0` against
the backend that fails every request with a generic error. -/
theorem C8_failure_no_mutation_witness :
    (f0.update errClient none).result = Except.error (Err.other 500) ∧
    (f0.update errClient none).state = f0 ∧
    (f0.undelete errClient none false).result =
      Except.error (Err.other 500) ∧
    (f0.undelete errClient none false).state = f0 :=
  C8_failure_no_mutation f0 errClient (Err.other 500) (Err.other 500)
    rfl rfl

/-- C9: when an override client is passed to `delete` or `undelete` with
`reload_data` set and the first request succeeds, the DELETE (or the POST
to `:undelete`) is issued on the override client, while the follow-up GET
performed by the internal `reload()` is issued on the handle's bound
client. -/
theorem C9_override_reload_client (f : Folder) (bound c : Client)
    (r1 r2 : Dict)
    (h1 : c.backend { method := "DELETE", path := f.path } =
      Except.ok r1)
    (h2 : c.backend { method := "POST", path := f.path ++ ":undelete" } =
      Except.ok r2) :
    (f.delete bound (some c) true).trace.map (fun p => p.1) =
      [c.id, bound.id] ∧
    (f.delete bound (some c) true).trace.map (fun p => p.2.method) =
      ["DELETE", "GET"] ∧
    (f.undelete bound (some c) true).trace.map (fun p => p.1) =
      [c.id, bound.id] ∧
    (f.undelete bound (some c) true).trace.map (fun p => p.2.method) =
      ["POST", "GET"] := by
  unfold Folder.delete Folder.undelete Folder.reload Folder.require_client
  simp only [h1, h2]
  cases hg : bound.backend { method := "GET", path := f.path } <;>
    simp [hg]

/-- C9, witness: delete and undelete on `f0` with the always-succeeding
client (id 1) passed as override while the bound client is the failing
client (id 2); both traces show the first request on client 1 and the
reload GET on client 2. -/
theorem C9_override_reload_client_witness :
    (f0.delete errClient (some okClient) true).trace.map (fun p => p.1) =
      [okClient.id, errClient.id] ∧
    (f0.delete errClient (some okClient) true).trace.map
      (fun p => p.2.method) = ["DELETE", "GET"] ∧
    (f0.undelete errClient (some okClient) true).trace.map
      (fun p => p.1) = [okClient.id, errClient.id] ∧
    (f0.undelete errClient (some okClient) true).trace.map
      (fun p => p.2.method) = ["POST", "GET"] :=
  C9_override_reload_client f0 errClient okClient fullResp fullResp
    rfl rfl

/-- Presence of a key coincides with `find?` succeeding on it. -/
theorem Dict.hasKey_eq_find_isSome (r : Dict) (k : String) :
    r.hasKey k = (r.find? (fun p => p.1 == k)).isSome := by
  induction r with
  | nil => rfl
  | cons hd tl ih =>
    unfold Dict.hasKey at ih ⊢
    cases hk : hd.1 == k <;> simp [List.find?, hk, ih]

/-- C10: `from_api_repr` succeeds exactly when the resource dict carries
the key `name`; on success the constructed folder is the empty folder
seeded with the resource's name and then merged through
`set_properties_from_api_repr` (so id, parent and lifecycleState come
from the resource, display name stays unset); an absent `name` key makes
the lookup `resource["name"]` fail before any folder is produced. -/
theorem C10_from_api_repr (r : Dict) :
    ((Folder.from_api_repr r).isSome ↔ r.hasKey "name" = true) ∧
    (∀ f : Folder, Folder.from_api_repr r = some f →
      f = Folder.set_properties_from_api_repr
        { name := r.pyGet "name", display_name := none,
          status := none, parent := none } r) := by
  unfold Folder.from_api_repr
  rw [Dict.hasKey_eq_find_isSome]
  cases hf : r.find? (fun p => p.1 == "name") with
  | none => simp
  | some p =>
    have hg : r.pyGet "name" = p.2 := by unfold Dict.pyGet; rw [hf]
    constructor
    · simp
    · intro f hfold
      rw [Option.some.injEq] at hfold
      rw [← hfold, hg]

/-- C10, witness: `from_api_repr` on the full representation (whose
`name` key is present) applied through the general theorem. -/
theorem C10_from_api_repr_witness :
    ((Folder.from_api_repr fullResp).isSome ↔
      Dict.hasKey fullResp "name" = true) ∧
    (∀ f : Folder, Folder.from_api_repr fullResp = some f →
      f = Folder.set_properties_from_api_repr
        { name := Dict.pyGet fullResp "name", display_name := none,
          status := none, parent := none } fullResp) :=
  C10_from_api_repr fullResp
